import Mathlib

/-!
Shallow embedding of the Planet Wars behavior-tree bot
(`behavior_tree_bot/behaviors.py`, `behavior_tree_bot/checks.py`,
`behavior_tree_bot/bt_bot.py`).

Conventions of the embedding: ship counts, growth rates, distances and
turns-remaining counters are natural numbers; the real-valued scores of the
Python code are modelled over `ℚ`; Python's `-float('inf')` sentinel is
`(⊥ : WithBot ℚ)`; a function that can raise is modelled with `Option`
(`none` = the exception); a behavior's `return issue_order(...)` /
`return False` outcome is modelled as `some order` / `none`.
-/

namespace PW

/-- Owner tag of a planet or a fleet. -/
inductive Owner where
  | mine
  | enemy
  | neutral
deriving DecidableEq, Repr

/-- Modelled from the spec: the `Planet` record lives in `planet_wars.py`,
which is not among the sources; per the spec's data model a planet carries a
stable identifier, an owner, a non-negative ship count and a non-negative
growth rate.  There is a single ship-count field, so the source's accesses
`p.num_ships` and `p.ships` (behaviors.py line 181) both denote `num_ships`. -/
structure Planet where
  ID : Nat
  owner : Owner
  num_ships : Nat
  growth_rate : Nat
deriving DecidableEq, Repr

/-- Modelled from the spec: the `Fleet` record lives in `planet_wars.py`
(not among the sources); it carries an owner, a ship count, a destination
planet id and a turns-remaining counter. -/
structure Fleet where
  owner : Owner
  num_ships : Nat
  destination_planet : Nat
  turns_remaining : Nat
deriving DecidableEq, Repr

/-- Modelled from the spec: the per-turn snapshot behind the `state` object of
`planet_wars.py`; `dist` is the static symmetric distance table
(`state.distance`). -/
structure GameState where
  planets : List Planet
  fleets : List Fleet
  dist : Nat → Nat → Nat

def GameState.my_planets (st : GameState) : List Planet :=
  st.planets.filter (fun p => decide (p.owner = Owner.mine))

def GameState.enemy_planets (st : GameState) : List Planet :=
  st.planets.filter (fun p => decide (p.owner = Owner.enemy))

def GameState.neutral_planets (st : GameState) : List Planet :=
  st.planets.filter (fun p => decide (p.owner = Owner.neutral))

def GameState.my_fleets (st : GameState) : List Fleet :=
  st.fleets.filter (fun f => decide (f.owner = Owner.mine))

def GameState.enemy_fleets (st : GameState) : List Fleet :=
  st.fleets.filter (fun f => decide (f.owner = Owner.enemy))

/-- Modelled from the spec: `issue_order` of `planet_wars.py` (not among the
sources) records a (source, destination, ship count) order and reports
success, so a behavior's result is the order it issued, if any. -/
structure Order where
  source : Nat
  destination : Nat
  num_ships : Int
deriving DecidableEq, Repr

/-- Python's `max(l, key=..., default=None)` / `min(...)` shape shared by the
helpers: scan the list keeping the first element among ties, replacing the
running best only on a strict improvement of `better`. -/
def pickBy (better : Planet → Planet → Bool) (l : List Planet) : Option Planet :=
  l.foldl
    (fun acc p =>
      match acc with
      | none => some p
      | some q => if better p q then some p else some q)
    none

/-- `get_strongest_planet` (behaviors.py lines 67-68). -/
def get_strongest_planet (st : GameState) : Option Planet :=
  pickBy (fun p q => decide (q.num_ships < p.num_ships)) st.my_planets

/-- `get_weakest_planet` (behaviors.py lines 70-71). -/
def get_weakest_planet (l : List Planet) : Option Planet :=
  pickBy (fun p q => decide (p.num_ships < q.num_ships)) l

/-- `get_closest_planet` (behaviors.py lines 73-76); `none` source or an empty
candidate list yields `None`. -/
def get_closest_planet (st : GameState) (source_planet : Option Planet)
    (planets : List Planet) : Option Planet :=
  match source_planet with
  | none => none
  | some s => pickBy (fun p q => decide (st.dist s.ID p.ID < st.dist s.ID q.ID)) planets

/-- `average_ally_power` (behaviors.py lines 78-86): mean ship count over owned
planets, `0` when there are none. -/
def average_ally_power (st : GameState) : ℚ :=
  if st.my_planets.isEmpty then 0
  else ((st.my_planets.map (fun p => (p.num_ships : ℚ))).sum) / (st.my_planets.length : ℚ)

/-- The fleet loop of `danger_level` (behaviors.py lines 108-116): every
iteration rebinds `normalized_dist` / `normalized_ships`, so after the loop
they hold the values of the last incoming fleet only, and they are unbound
(Python `UnboundLocalError`, modelled as `none`) when the loop never ran. -/
def fleetLoopVars (fleets : List Fleet) : Option (ℚ × ℚ) :=
  fleets.foldl
    (fun _ f =>
      some (1 / ((f.turns_remaining : ℚ) + 1),
            (f.num_ships : ℚ) / ((f.num_ships : ℚ) + 100)))
    none

/-- The enemy-planet loop of `danger_level` (behaviors.py lines 120-124). -/
def enemyPlanetPressure (st : GameState) (planet : Planet) : ℚ :=
  (st.enemy_planets.map
    (fun p => (st.dist p.ID planet.ID : ℚ) * 3 + (p.num_ships : ℚ) * 1)).sum

/-- `danger_level` (behaviors.py lines 89-126).  The `score +=` of line 118
sits outside the fleet loop, so the score receives one fleet term (for the
last incoming fleet), and the function raises `UnboundLocalError` (modelled
`none`) when no enemy fleet is inbound to `planet`. -/
def danger_level (st : GameState) (planet : Planet) : Option ℚ :=
  let incoming := st.enemy_fleets.filter (fun f => decide (f.destination_planet = planet.ID))
  match fleetLoopVars incoming with
  | none => none
  | some nv => some (nv.1 * 5 + nv.2 * 3 + enemyPlanetPressure st planet)

/-- `DANGER_LEVEL_THRESHOLD` (checks.py line 9). -/
def dangerLevelThreshold : ℚ := 50

/-- The loop of `if_high_danger_planet` (checks.py lines 120-123), with the
exception from `danger_level` propagated as `none`. -/
def highDangerLoop (st : GameState) : List Planet → Option Bool
  | [] => some false
  | p :: rest =>
    match danger_level st p with
    | none => none
    | some d => if dangerLevelThreshold < d then some true else highDangerLoop st rest

/-- `if_high_danger_planet` (checks.py lines 117-123). -/
def if_high_danger_planet (st : GameState) : Option Bool :=
  highDangerLoop st st.my_planets

/-- `calculate_target_score` (behaviors.py lines 128-147). -/
def calculate_target_score (st : GameState)
    (source_planet target_planet : Option Planet) : WithBot ℚ :=
  match source_planet, target_planet with
  | some s, some t =>
    if st.dist s.ID t.ID = 0 then ⊥
    else ((t.growth_rate : ℚ) * 3 + 1 / (st.dist s.ID t.ID : ℚ) * 2
            - (t.num_ships : ℚ) * (3 / 2) : ℚ)
  | _, _ => ⊥

/-- The scan shared by `find_best_enemy_target` / `find_best_neutral_target`
(behaviors.py lines 153-161): starting from `best_score = -inf`,
`best_target = None`, replace the running best only on a strictly greater
score. -/
def bestLoop (f : Planet → WithBot ℚ) :
    List Planet → WithBot ℚ → Option Planet → Option Planet
  | [], _, best => best
  | p :: rest, bestScore, best =>
    if bestScore < f p then bestLoop f rest (f p) (some p)
    else bestLoop f rest bestScore best

/-- `find_best_enemy_target` (behaviors.py lines 149-162). -/
def find_best_enemy_target (st : GameState) (source_planet : Option Planet) :
    Option Planet :=
  match source_planet with
  | none => none
  | some s =>
    bestLoop (fun p => calculate_target_score st (some s) (some p)) st.enemy_planets ⊥ none

/-- `find_best_neutral_target` (behaviors.py lines 164-177). -/
def find_best_neutral_target (st : GameState) (source_planet : Option Planet) :
    Option Planet :=
  match source_planet with
  | none => none
  | some s =>
    bestLoop (fun p => calculate_target_score st (some s) (some p)) st.neutral_planets ⊥ none

/-- `deployable_planets` (behaviors.py lines 179-182); `p.ships` reads the
planet's single ship-count field (see `Planet`). -/
def deployable_planets (st : GameState) : List (Planet × ℚ) :=
  (st.my_planets.filter (fun p => decide (average_ally_power st < (p.num_ships : ℚ)))).map
    (fun p => (p, (p.num_ships : ℚ) - average_ally_power st))

/-- `attack_weakest_enemy_planet` (behaviors.py lines 186-201). -/
def attack_weakest_enemy_planet (st : GameState) : Option Order :=
  match get_strongest_planet st with
  | none => none
  | some strongest =>
    match get_weakest_planet st.enemy_planets with
    | none => none
    | some weakest =>
      if weakest.num_ships + 1 + 10 < strongest.num_ships then
        some ⟨strongest.ID, weakest.ID, ((weakest.num_ships + 1 : Nat) : Int)⟩
      else none

/-- `attack_best_target` (behaviors.py lines 203-217). -/
def attack_best_target (st : GameState) : Option Order :=
  match get_strongest_planet st with
  | none => none
  | some strongest =>
    if strongest.num_ships < 10 then none
    else
      match find_best_enemy_target st (some strongest) with
      | none => none
      | some t =>
        if t.num_ships + 1 + 15 < strongest.num_ships then
          some ⟨strongest.ID, t.ID, ((t.num_ships + 1 : Nat) : Int)⟩
        else none

/-- `spread_to_weakest_neutral_planet` (behaviors.py lines 219-233). -/
def spread_to_weakest_neutral_planet (st : GameState) : Option Order :=
  match get_strongest_planet st with
  | none => none
  | some strongest =>
    match get_weakest_planet st.neutral_planets with
    | none => none
    | some weakest =>
      if weakest.num_ships + 1 + 5 < strongest.num_ships then
        some ⟨strongest.ID, weakest.ID, ((weakest.num_ships + 1 : Nat) : Int)⟩
      else none

/-- `expand_to_valuable_neutral` (behaviors.py lines 235-248). -/
def expand_to_valuable_neutral (st : GameState) : Option Order :=
  match get_strongest_planet st with
  | none => none
  | some strongest =>
    if strongest.num_ships < 15 then none
    else
      match find_best_neutral_target st (some strongest) with
      | none => none
      | some t =>
        if t.num_ships + 1 + 10 < strongest.num_ships then
          some ⟨strongest.ID, t.ID, ((t.num_ships + 1 : Nat) : Int)⟩
        else none

/-- The incoming enemy fleets of a planet (behaviors.py lines 256-259). -/
def incomingFleets (st : GameState) (planet : Planet) : List Fleet :=
  st.enemy_fleets.filter (fun f => decide (f.destination_planet = planet.ID))

/-- `total_incoming` of `defend_under_attack_planet` (behaviors.py line 262). -/
def totalIncoming (st : GameState) (planet : Planet) : Nat :=
  ((incomingFleets st planet).map Fleet.num_ships).sum

/-- The body of the `for my_planet in state.my_planets()` loop of
`defend_under_attack_planet` (behaviors.py lines 254-280); `none` means the
loop falls through to the next owned planet. -/
def defendPlanetOrder (st : GameState) (my_planet : Planet) : Option Order :=
  if (incomingFleets st my_planet).isEmpty then none
  else
    if my_planet.num_ships ≤ totalIncoming st my_planet then
      match get_closest_planet st (some my_planet)
          (st.my_planets.filter
            (fun p => decide (p.ID ≠ my_planet.ID ∧
              totalIncoming st my_planet + 5 < p.num_ships))) with
      | none => none
      | some closest =>
        let ships_to_send : Int :=
          (totalIncoming st my_planet : Int) - (my_planet.num_ships : Int) + 5
        if 0 < ships_to_send ∧ ships_to_send + 5 < (closest.num_ships : Int) then
          some ⟨closest.ID, my_planet.ID, ships_to_send⟩
        else none
    else none

/-- The outer loop of `defend_under_attack_planet`: return on the first owned
planet whose body issues an order. -/
def defendLoop (st : GameState) : List Planet → Option Order
  | [] => none
  | p :: rest =>
    match defendPlanetOrder st p with
    | some o => some o
    | none => defendLoop st rest

/-- `defend_under_attack_planet` (behaviors.py lines 252-281). -/
def defend_under_attack_planet (st : GameState) : Option Order :=
  defendLoop st st.my_planets

/-- The nested loops of `reinforce_frontline` (behaviors.py lines 289-297):
thread `(min_distance, frontline_planet)` over all (mine, enemy) pairs,
replacing on a strictly smaller distance. -/
def frontlineScan (st : GameState) : Option (Nat × Planet) :=
  st.my_planets.foldl
    (fun acc mp =>
      st.enemy_planets.foldl
        (fun acc2 ep =>
          match acc2 with
          | none => some (st.dist mp.ID ep.ID, mp)
          | some best =>
            if st.dist mp.ID ep.ID < best.1 then some (st.dist mp.ID ep.ID, mp)
            else some best)
        acc)
    none

/-- `reinforce_frontline` (behaviors.py lines 283-318). -/
def reinforce_frontline (st : GameState) : Option Order :=
  if st.enemy_planets.isEmpty ∨ st.my_planets.isEmpty then none
  else
    match frontlineScan st with
    | none => none
    | some best =>
      match pickBy (fun p q => decide (q.num_ships < p.num_ships))
          (st.my_planets.filter
            (fun p => decide (p.ID ≠ best.2.ID ∧ best.2.num_ships + 10 < p.num_ships))) with
      | none => none
      | some strongest_reinforcer =>
        let ships_to_send : Int := min ((strongest_reinforcer.num_ships : Int) - 10) 20
        if 5 < ships_to_send then
          some ⟨strongest_reinforcer.ID, best.2.ID, ships_to_send⟩
        else none

/-- The danger formula exactly as the spec states it, with every incoming
enemy fleet contributing its own term; written from the spec's words for
comparison with the source's `danger_level`. -/
def dangerLevelClaim (st : GameState) (planet : Planet) : ℚ :=
  ((incomingFleets st planet).map
    (fun f => 1 / ((f.turns_remaining : ℚ) + 1) * 5
      + (f.num_ships : ℚ) / ((f.num_ships : ℚ) + 100) * 3)).sum
  + enemyPlanetPressure st planet

/-- Module-level names defined by `behavior_tree_bot/behaviors.py`, including
the names its own imports bind (which `from behaviors import *` re-exports,
since the module sets no `__all__`). -/
def behaviorsModuleNames : List String :=
  ["sys", "issue_order",
   "get_strongest_planet", "get_weakest_planet", "get_closest_planet",
   "average_ally_power", "danger_level", "calculate_target_score",
   "find_best_enemy_target", "find_best_neutral_target", "deployable_planets",
   "attack_weakest_enemy_planet", "attack_best_target",
   "spread_to_weakest_neutral_planet", "expand_to_valuable_neutral",
   "defend_under_attack_planet", "reinforce_frontline"]

/-- Module-level names defined by `behavior_tree_bot/checks.py` (the one
binding of `danger_level` it makes is local to `if_high_danger_planet`). -/
def checksModuleNames : List String :=
  ["ATTACK_SAFETY_RATIO", "HARD_ATTACK_RATIO", "STRONG_PLANET_THRESHOLD",
   "DANGER_LEVEL_THRESHOLD", "FRONTLINE_DISTANCE", "FRONTLINE_WEAKNESS_RATIO",
   "EXPANSION_SAFE_DISTANCE", "EXPANSION_ENEMY_STRENGTH_RATIO",
   "INCOMING_DANGER_TIME", "INCOMING_DANGER_RATIO", "EARLY_GAME_PLANET_COUNT",
   "if_neutral_planet_available", "have_largest_fleet", "if_enemy_fleet_incoming",
   "if_strong_enough_to_attack", "if_safe_to_expand", "hard_attack",
   "if_early_game", "if_high_danger_planet", "needReinforcements",
   "if_has_strong_planet"]

/-- The global names visible inside `setup_behavior_tree` of `bt_bot.py`: the
star-imports from `behaviors` and `checks`, the node classes imported from
`bt_nodes`, the names from `planet_wars`, and the module's own top-level
bindings (bt_bot.py lines 9-33, 36, 76). -/
def btBotGlobalNames : List String :=
  behaviorsModuleNames ++ checksModuleNames ++
  ["logging", "traceback", "sys", "os", "inspect", "currentdir", "parentdir",
   "Selector", "Sequence", "Action", "Check", "PlanetWars", "finish_turn",
   "enemies_exist", "need_build_up", "can_expand_safe",
   "setup_behavior_tree", "do_turn"]

/-- The local names bound inside the body of `setup_behavior_tree`
(bt_bot.py lines 37-58): Python makes every assigned name local for the whole
call, and the nested `def enemies_exist` shadows the module-level one. -/
def setupLocalNames : List String :=
  ["root", "enemies_exist", "def_seq", "attack_seq", "expand_seq"]

/-- The free leaf-function names `setup_behavior_tree` evaluates, in source
evaluation order (bt_bot.py lines 46-66); the lambda bodies of line 60 are not
evaluated during tree construction. -/
def setupLeafRefs : List String :=
  ["enemy_fleets_incoming", "defend_attacked", "enemies_exist",
   "constant_attack", "neutrals_available", "expand_neutral",
   "fleets_not_flying"]

/-- Modelled from the spec/Python name resolution: evaluating a free variable
resolves it against the enclosing local scope and then the module globals; the
first name resolved by neither raises `NameError` there. -/
def firstUnresolvedName (localNames globalNames refs : List String) : Option String :=
  refs.find? (fun n => !(localNames.contains n || globalNames.contains n))

/-- The `NameError` outcome of running `setup_behavior_tree()`: the first leaf
name it evaluates that is bound nowhere in scope, if any. -/
def setup_behavior_tree_error : Option String :=
  firstUnresolvedName setupLocalNames btBotGlobalNames setupLeafRefs

/-! ## Concrete scenario states -/

/-- The owned planet of the spec's attack scenario (id 1, 50 ships, growth 5). -/
def pA1 : Planet := ⟨1, Owner.mine, 50, 5⟩

/-- The enemy planet of the spec's attack scenario (id 2, 5 ships, growth 3). -/
def pA2 : Planet := ⟨2, Owner.enemy, 5, 3⟩

/-- Spec scenario: one owned planet, one enemy planet, distance 3, no fleets. -/
def scenarioA : GameState :=
  ⟨[pA1, pA2], [], fun a b => if a = b then 0 else 3⟩

/-- Spec defense scenario: planet 1 (10 ships) attacked by a 30-ship fleet two
turns out, planet 2 (50 ships) at distance 4. -/
def scenarioD : GameState :=
  ⟨[⟨1, Owner.mine, 10, 2⟩, ⟨2, Owner.mine, 50, 2⟩],
   [⟨Owner.enemy, 30, 1, 2⟩],
   fun a b => if a = b then 0 else 4⟩

/-- A planet with two identical incoming enemy fleets (100 ships, arriving now). -/
def scenarioTwoFleets : GameState :=
  ⟨[⟨1, Owner.mine, 10, 1⟩],
   [⟨Owner.enemy, 100, 1, 0⟩, ⟨Owner.enemy, 100, 1, 0⟩],
   fun _ _ => 0⟩

def pTwoFleets : Planet := ⟨1, Owner.mine, 10, 1⟩

/-- A state with one owned planet and no fleets at all. -/
def scenarioNoFleets : GameState :=
  ⟨[⟨1, Owner.mine, 20, 5⟩], [], fun _ _ => 0⟩

def pNoFleets : Planet := ⟨1, Owner.mine, 20, 5⟩

/-- A state where a friendly 6-ship fleet is already in flight to the neutral
planet 2 (5 ships), fully covering its capture cost of 6 ships. -/
def scenarioCovered : GameState :=
  ⟨[⟨1, Owner.mine, 30, 1⟩, ⟨2, Owner.neutral, 5, 5⟩],
   [⟨Owner.mine, 6, 2, 1⟩],
   fun a b => if a = b then 0 else 2⟩

/-- Two owned planets with 10 and 30 ships (average 20). -/
def scenarioTwoMine : GameState :=
  ⟨[⟨1, Owner.mine, 10, 1⟩, ⟨2, Owner.mine, 30, 1⟩], [], fun _ _ => 0⟩

/-- A single incoming enemy fleet of 10 ships, three turns out. -/
def fleetSmall : Fleet := ⟨Owner.enemy, 10, 1, 3⟩

/-- The same fleet with 20 ships. -/
def fleetBig : Fleet := ⟨Owner.enemy, 20, 1, 3⟩

def pMono : Planet := ⟨1, Owner.mine, 3, 1⟩

def distMono : Nat → Nat → Nat := fun _ _ => 1

/-- The invariant of the spec's §4.5: whenever a behavior issues an order, the
order's ship count stays strictly below the ship count of the owned planet it
is issued from. -/
def ordersWithinSource (st : GameState) (result : Option Order) : Prop :=
  ∀ o : Order, result = some o →
    ∃ p ∈ st.my_planets, p.ID = o.source ∧ o.num_ships < (p.num_ships : Int)

/-! ## Helper lemmas -/

theorem pickBy_mem_aux (better : Planet → Planet → Bool) :
    ∀ (l : List Planet) (acc : Option Planet) (p : Planet),
      l.foldl
        (fun a q =>
          match a with
          | none => some q
          | some r => if better q r then some q else some r) acc = some p →
      acc = some p ∨ p ∈ l := by
  intro l
  induction l with
  | nil => intro acc p h; exact Or.inl h
  | cons x rest ih =>
    intro acc p h
    rw [List.foldl_cons] at h
    rcases ih _ p h with h2 | h2
    · cases acc with
      | none =>
        simp only [Option.some.injEq] at h2
        exact Or.inr (by simp [h2])
      | some r =>
        by_cases hb : better x r
        · simp [hb] at h2
          exact Or.inr (by simp [h2])
        · simp [hb] at h2
          exact Or.inl (by simp [h2])
    · exact Or.inr (List.mem_cons_of_mem _ h2)

theorem pickBy_mem (better : Planet → Planet → Bool) (l : List Planet) (p : Planet)
    (h : pickBy better l = some p) : p ∈ l := by
  rcases pickBy_mem_aux better l none p h with h2 | h2
  · exact absurd h2 (by simp)
  · exact h2

theorem defendLoop_first (st : GameState) :
    ∀ (l : List Planet) (o : Order), defendLoop st l = some o →
      ∃ l1 p l2, l = l1 ++ p :: l2 ∧
        (∀ q ∈ l1, defendPlanetOrder st q = none) ∧
        defendPlanetOrder st p = some o := by
  intro l
  induction l with
  | nil => intro o h; simp [defendLoop] at h
  | cons x rest ih =>
    intro o h
    rw [defendLoop] at h
    cases hx : defendPlanetOrder st x with
    | some o' =>
      rw [hx] at h
      refine ⟨[], x, rest, by simp, by simp, ?_⟩
      simpa [hx] using h
    | none =>
      rw [hx] at h
      simp only at h
      rcases ih o h with ⟨l1, p, l2, hsplit, hnone, hp⟩
      refine ⟨x :: l1, p, l2, by simp [hsplit], ?_, hp⟩
      intro q hq
      rcases List.mem_cons.mp hq with rfl | hq
      · exact hx
      · exact hnone q hq

theorem bestLoop_none (f : Planet → WithBot ℚ) :
    ∀ (l : List Planet) (b : WithBot ℚ) (t : Option Planet),
      bestLoop f l b t = none → t = none ∧ ∀ q ∈ l, f q ≤ b := by
  intro l
  induction l with
  | nil =>
    intro b t h
    rw [bestLoop] at h
    exact ⟨h, by simp⟩
  | cons p rest ih =>
    intro b t h
    rw [bestLoop] at h
    by_cases hc : b < f p
    · rw [if_pos hc] at h
      rcases ih _ _ h with ⟨h1, _⟩
      exact absurd h1 (by simp)
    · rw [if_neg hc] at h
      rcases ih _ _ h with ⟨h1, h2⟩
      refine ⟨h1, ?_⟩
      intro q hq
      rcases List.mem_cons.mp hq with rfl | hq
      · exact not_lt.mp hc
      · exact h2 q hq

theorem bestLoop_some (f : Planet → WithBot ℚ) :
    ∀ (l : List Planet) (b : WithBot ℚ) (t : Option Planet) (p : Planet),
      bestLoop f l b t = some p →
      (t = some p ∧ ∀ q ∈ l, f q ≤ b) ∨
      (∃ l1 l2, l = l1 ++ p :: l2 ∧ b < f p ∧
        (∀ q ∈ l1, f q < f p) ∧ (∀ q ∈ l2, f q ≤ f p)) := by
  intro l
  induction l with
  | nil =>
    intro b t p h
    rw [bestLoop] at h
    exact Or.inl ⟨h, by simp⟩
  | cons x rest ih =>
    intro b t p h
    rw [bestLoop] at h
    by_cases hc : b < f x
    · rw [if_pos hc] at h
      rcases ih _ _ _ h with ⟨h1, h2⟩ | ⟨l1, l2, hsplit, hlt, hl1, hl2⟩
      · -- the running best was `x` and nothing in `rest` beat it
        obtain rfl : x = p := by simpa using h1
        exact Or.inr ⟨[], rest, by simp, hc, by simp, h2⟩
      · refine Or.inr ⟨x :: l1, l2, by simp [hsplit], lt_trans hc hlt, ?_, hl2⟩
        intro q hq
        rcases List.mem_cons.mp hq with rfl | hq
        · exact hlt
        · exact hl1 q hq
    · rw [if_neg hc] at h
      rcases ih _ _ _ h with ⟨h1, h2⟩ | ⟨l1, l2, hsplit, hlt, hl1, hl2⟩
      · refine Or.inl ⟨h1, ?_⟩
        intro q hq
        rcases List.mem_cons.mp hq with rfl | hq
        · exact not_lt.mp hc
        · exact h2 q hq
      · refine Or.inr ⟨x :: l1, l2, by simp [hsplit], hlt, ?_, hl2⟩
        intro q hq
        rcases List.mem_cons.mp hq with rfl | hq
        · exact lt_of_le_of_lt (not_lt.mp hc) hlt
        · exact hl1 q hq

/-! ## Claim theorems -/

/-- Claim C2: the spec says `danger_level` sums the normalized fleet term over ALL
incoming enemy fleets; on a planet with two identical incoming fleets (100
ships, 0 turns out, no enemy planets) the spec formula gives `13`, but the
source adds the term of the last fleet only and returns `13/2`, because line
118 of behaviors.py sits outside the fleet loop. -/
theorem danger_level_counts_last_fleet_only :
    danger_level scenarioTwoFleets pTwoFleets = some (13 / 2) ∧
    dangerLevelClaim scenarioTwoFleets pTwoFleets = 13 ∧
    danger_level scenarioTwoFleets pTwoFleets ≠
      some (dangerLevelClaim scenarioTwoFleets pTwoFleets) := by
  refine ⟨?_, ?_, ?_⟩
  · show danger_level scenarioTwoFleets pTwoFleets = some (13 / 2)
    simp only [danger_level, fleetLoopVars, enemyPlanetPressure, GameState.enemy_fleets,
      GameState.enemy_planets, scenarioTwoFleets, pTwoFleets, List.filter, List.foldl,
      List.map]
    norm_num
  · show dangerLevelClaim scenarioTwoFleets pTwoFleets = 13
    simp only [dangerLevelClaim, incomingFleets, enemyPlanetPressure, GameState.enemy_fleets,
      GameState.enemy_planets, scenarioTwoFleets, pTwoFleets, List.filter, List.map,
      List.sum_cons, List.sum_nil]
    norm_num
  · show danger_level scenarioTwoFleets pTwoFleets ≠
      some (dangerLevelClaim scenarioTwoFleets pTwoFleets)
    simp only [danger_level, dangerLevelClaim, fleetLoopVars, incomingFleets,
      enemyPlanetPressure, GameState.enemy_fleets, GameState.enemy_planets,
      scenarioTwoFleets, pTwoFleets, List.filter, List.foldl, List.map,
      List.sum_cons, List.sum_nil]
    norm_num

/-- Claim C3: the claim says every Check terminates normally with a boolean; but on
any state with an owned planet that has no incoming enemy fleet,
`danger_level`'s fleet loop never runs, line 118 of behaviors.py reads the
unassigned `normalized_dist`, Python raises `UnboundLocalError`, and
`if_high_danger_planet` propagates it (modelled as `none`). -/
theorem if_high_danger_planet_raises :
    if_high_danger_planet scenarioNoFleets = none ∧
    danger_level scenarioNoFleets pNoFleets = none := by
  constructor
  · rfl
  · rfl

theorem get_closest_planet_mem (st : GameState) (s : Planet) (l : List Planet)
    (r : Planet) (h : get_closest_planet st (some s) l = some r) : r ∈ l :=
  pickBy_mem _ _ _ h

theorem attack_best_target_inv (st : GameState) (o : Order)
    (h : attack_best_target st = some o) :
    ∃ s t, get_strongest_planet st = some s ∧ 10 ≤ s.num_ships ∧
      find_best_enemy_target st (some s) = some t ∧
      t.num_ships + 1 + 15 < s.num_ships ∧
      o = ⟨s.ID, t.ID, ((t.num_ships + 1 : Nat) : Int)⟩ := by
  unfold attack_best_target at h
  split at h
  · exact absurd h (by simp)
  · rename_i s hs
    split at h
    · exact absurd h (by simp)
    · rename_i h10
      split at h
      · exact absurd h (by simp)
      · rename_i t ht
        split at h
        · rename_i hc
          exact ⟨s, t, hs, Nat.le_of_not_lt h10, ht, hc, (Option.some.inj h).symm⟩
        · exact absurd h (by simp)

theorem attack_weakest_enemy_planet_inv (st : GameState) (o : Order)
    (h : attack_weakest_enemy_planet st = some o) :
    ∃ s w, get_strongest_planet st = some s ∧
      get_weakest_planet st.enemy_planets = some w ∧
      w.num_ships + 1 + 10 < s.num_ships ∧
      o = ⟨s.ID, w.ID, ((w.num_ships + 1 : Nat) : Int)⟩ := by
  unfold attack_weakest_enemy_planet at h
  split at h
  · exact absurd h (by simp)
  · rename_i s hs
    split at h
    · exact absurd h (by simp)
    · rename_i w hw
      split at h
      · rename_i hc
        exact ⟨s, w, hs, hw, hc, (Option.some.inj h).symm⟩
      · exact absurd h (by simp)

theorem spread_to_weakest_neutral_planet_inv (st : GameState) (o : Order)
    (h : spread_to_weakest_neutral_planet st = some o) :
    ∃ s w, get_strongest_planet st = some s ∧
      get_weakest_planet st.neutral_planets = some w ∧
      w.num_ships + 1 + 5 < s.num_ships ∧
      o = ⟨s.ID, w.ID, ((w.num_ships + 1 : Nat) : Int)⟩ := by
  unfold spread_to_weakest_neutral_planet at h
  split at h
  · exact absurd h (by simp)
  · rename_i s hs
    split at h
    · exact absurd h (by simp)
    · rename_i w hw
      split at h
      · rename_i hc
        exact ⟨s, w, hs, hw, hc, (Option.some.inj h).symm⟩
      · exact absurd h (by simp)

theorem expand_to_valuable_neutral_inv (st : GameState) (o : Order)
    (h : expand_to_valuable_neutral st = some o) :
    ∃ s t, get_strongest_planet st = some s ∧ 15 ≤ s.num_ships ∧
      find_best_neutral_target st (some s) = some t ∧
      t.num_ships + 1 + 10 < s.num_ships ∧
      o = ⟨s.ID, t.ID, ((t.num_ships + 1 : Nat) : Int)⟩ := by
  unfold expand_to_valuable_neutral at h
  split at h
  · exact absurd h (by simp)
  · rename_i s hs
    split at h
    · exact absurd h (by simp)
    · rename_i h15
      split at h
      · exact absurd h (by simp)
      · rename_i t ht
        split at h
        · rename_i hc
          exact ⟨s, t, hs, Nat.le_of_not_lt h15, ht, hc, (Option.some.inj h).symm⟩
        · exact absurd h (by simp)

theorem defendPlanetOrder_inv (st : GameState) (p : Planet) (o : Order)
    (h : defendPlanetOrder st p = some o) :
    p.num_ships ≤ totalIncoming st p ∧
    ∃ r, get_closest_planet st (some p)
        (st.my_planets.filter
          (fun q => decide (q.ID ≠ p.ID ∧ totalIncoming st p + 5 < q.num_ships))) = some r ∧
      o = ⟨r.ID, p.ID, (totalIncoming st p : Int) - (p.num_ships : Int) + 5⟩ ∧
      o.num_ships + 5 < (r.num_ships : Int) := by
  unfold defendPlanetOrder at h
  split at h
  · exact absurd h (by simp)
  · split at h
    · rename_i hle
      split at h
      · exact absurd h (by simp)
      · rename_i r hr
        dsimp only at h
        split at h
        · rename_i hcond
          refine ⟨hle, r, hr, (Option.some.inj h).symm, ?_⟩
          rw [← Option.some.inj h]
          exact hcond.2
        · exact absurd h (by simp)
    · exact absurd h (by simp)

theorem reinforce_frontline_inv (st : GameState) (o : Order)
    (h : reinforce_frontline st = some o) :
    ∃ fl r, frontlineScan st = some fl ∧
      pickBy (fun p q => decide (q.num_ships < p.num_ships))
        (st.my_planets.filter
          (fun p => decide (p.ID ≠ fl.2.ID ∧ fl.2.num_ships + 10 < p.num_ships))) = some r ∧
      o = ⟨r.ID, fl.2.ID, min ((r.num_ships : Int) - 10) 20⟩ ∧
      5 < min ((r.num_ships : Int) - 10) 20 := by
  unfold reinforce_frontline at h
  split at h
  · exact absurd h (by simp)
  · split at h
    · exact absurd h (by simp)
    · rename_i fl hfl
      split at h
      · exact absurd h (by simp)
      · rename_i r hr
        dsimp only at h
        split at h
        · rename_i hcond
          exact ⟨fl, r, hfl, hr, (Option.some.inj h).symm, hcond⟩
        · exact absurd h (by simp)

/-- Claim C10: the behavior tree assembled by `setup_behavior_tree` in bt_bot.py
references six leaf functions that neither behaviors.py nor checks.py (nor
bt_bot.py itself) defines; the first of them evaluated,
`enemy_fleets_incoming`, raises `NameError` during tree construction, before
any turn is played. -/
theorem setup_behavior_tree_name_error :
    setup_behavior_tree_error = some "enemy_fleets_incoming" ∧
    (["enemy_fleets_incoming", "defend_attacked", "constant_attack",
      "expand_neutral", "neutrals_available", "fleets_not_flying"].all
      (fun n => !(btBotGlobalNames.contains n))) = true := by
  constructor
  · rfl
  · rfl

/-- Claim C1: every Action behavior of behaviors.py that issues an order
issues one whose ship count is strictly below the current ship count of the
owned planet it is sent from. -/
theorem orders_never_exceed_source (st : GameState) :
    ordersWithinSource st (attack_best_target st) ∧
    ordersWithinSource st (attack_weakest_enemy_planet st) ∧
    ordersWithinSource st (spread_to_weakest_neutral_planet st) ∧
    ordersWithinSource st (expand_to_valuable_neutral st) ∧
    ordersWithinSource st (defend_under_attack_planet st) ∧
    ordersWithinSource st (reinforce_frontline st) := by
  refine ⟨?_, ?_, ?_, ?_, ?_, ?_⟩
  · intro o h
    obtain ⟨s, t, hs, -, -, hc, rfl⟩ := attack_best_target_inv st o h
    refine ⟨s, pickBy_mem _ _ _ hs, rfl, ?_⟩
    show ((t.num_ships + 1 : Nat) : Int) < (s.num_ships : Int)
    exact_mod_cast Nat.lt_of_le_of_lt (Nat.le_add_right _ 15) hc
  · intro o h
    obtain ⟨s, w, hs, -, hc, rfl⟩ := attack_weakest_enemy_planet_inv st o h
    refine ⟨s, pickBy_mem _ _ _ hs, rfl, ?_⟩
    show ((w.num_ships + 1 : Nat) : Int) < (s.num_ships : Int)
    exact_mod_cast Nat.lt_of_le_of_lt (Nat.le_add_right _ 10) hc
  · intro o h
    obtain ⟨s, w, hs, -, hc, rfl⟩ := spread_to_weakest_neutral_planet_inv st o h
    refine ⟨s, pickBy_mem _ _ _ hs, rfl, ?_⟩
    show ((w.num_ships + 1 : Nat) : Int) < (s.num_ships : Int)
    exact_mod_cast Nat.lt_of_le_of_lt (Nat.le_add_right _ 5) hc
  · intro o h
    obtain ⟨s, t, hs, -, -, hc, rfl⟩ := expand_to_valuable_neutral_inv st o h
    refine ⟨s, pickBy_mem _ _ _ hs, rfl, ?_⟩
    show ((t.num_ships + 1 : Nat) : Int) < (s.num_ships : Int)
    exact_mod_cast Nat.lt_of_le_of_lt (Nat.le_add_right _ 10) hc
  · intro o h
    obtain ⟨l1, p, l2, hsplit, -, hp⟩ := defendLoop_first st st.my_planets o h
    obtain ⟨-, r, hr, ho, hbound⟩ := defendPlanetOrder_inv st p o hp
    have hrm : r ∈ st.my_planets :=
      List.mem_of_mem_filter (get_closest_planet_mem st p _ r hr)
    refine ⟨r, hrm, ?_, ?_⟩
    · simp [ho]
    · omega
  · intro o h
    obtain ⟨fl, r, -, hr, ho, -⟩ := reinforce_frontline_inv st o h
    have hrm : r ∈ st.my_planets := List.mem_of_mem_filter (pickBy_mem _ _ _ hr)
    refine ⟨r, hrm, by simp [ho], ?_⟩
    rw [ho]
    show min ((r.num_ships : Int) - 10) 20 < (r.num_ships : Int)
    have h1 := min_le_left ((r.num_ships : Int) - 10) 20
    omega

theorem orders_never_exceed_source_witness :
    ∃ p ∈ scenarioA.my_planets, p.ID = 1 ∧ (6 : Int) < (p.num_ships : Int) :=
  (orders_never_exceed_source scenarioA).1 ⟨1, 2, 6⟩ (by decide)

/-- Claim C4: `calculate_target_score` fails closed to `-inf` when a planet is
absent or the distance is zero, and otherwise returns
`growth*3 + (1/distance)*2 - ships*1.5`; the best-target scans return the
first candidate in iteration order attaining the strictly greatest score, and
a later candidate with an equal score never replaces it. -/
theorem target_scoring_spec (st : GameState) (src : Planet) :
    (∀ t : Option Planet, calculate_target_score st none t = ⊥) ∧
    (calculate_target_score st (some src) none = ⊥) ∧
    (∀ t : Planet, st.dist src.ID t.ID = 0 →
      calculate_target_score st (some src) (some t) = ⊥) ∧
    (∀ t : Planet, st.dist src.ID t.ID ≠ 0 →
      calculate_target_score st (some src) (some t) =
        (((t.growth_rate : ℚ) * 3 + 1 / (st.dist src.ID t.ID : ℚ) * 2
          - (t.num_ships : ℚ) * (3 / 2) : ℚ) : WithBot ℚ)) ∧
    (∀ p : Planet, find_best_enemy_target st (some src) = some p →
      ∃ l1 l2, st.enemy_planets = l1 ++ p :: l2 ∧
        (⊥ : WithBot ℚ) < calculate_target_score st (some src) (some p) ∧
        (∀ q ∈ l1, calculate_target_score st (some src) (some q) <
          calculate_target_score st (some src) (some p)) ∧
        (∀ q ∈ l2, calculate_target_score st (some src) (some q) ≤
          calculate_target_score st (some src) (some p))) ∧
    (∀ p : Planet, find_best_neutral_target st (some src) = some p →
      ∃ l1 l2, st.neutral_planets = l1 ++ p :: l2 ∧
        (⊥ : WithBot ℚ) < calculate_target_score st (some src) (some p) ∧
        (∀ q ∈ l1, calculate_target_score st (some src) (some q) <
          calculate_target_score st (some src) (some p)) ∧
        (∀ q ∈ l2, calculate_target_score st (some src) (some q) ≤
          calculate_target_score st (some src) (some p))) := by
  refine ⟨?_, ?_, ?_, ?_, ?_, ?_⟩
  · intro t; cases t <;> rfl
  · rfl
  · intro t h
    simp [calculate_target_score, h]
  · intro t h
    simp [calculate_target_score, h]
  · intro p h
    rcases bestLoop_some _ _ _ _ _ h with ⟨h1, -⟩ | ⟨l1, l2, hsplit, hbot, hl1, hl2⟩
    · exact absurd h1 (by simp)
    · exact ⟨l1, l2, hsplit, hbot, hl1, hl2⟩
  · intro p h
    rcases bestLoop_some _ _ _ _ _ h with ⟨h1, -⟩ | ⟨l1, l2, hsplit, hbot, hl1, hl2⟩
    · exact absurd h1 (by simp)
    · exact ⟨l1, l2, hsplit, hbot, hl1, hl2⟩

theorem target_scoring_spec_witness :
    calculate_target_score scenarioA (some pA1) (some pA2) =
      (((pA2.growth_rate : ℚ) * 3 + 1 / (scenarioA.dist pA1.ID pA2.ID : ℚ) * 2
        - (pA2.num_ships : ℚ) * (3 / 2) : ℚ) : WithBot ℚ) :=
  (target_scoring_spec scenarioA pA1).2.2.2.1 pA2 (by decide)

/-- Claim C5: `attack_best_target` issues an order iff a strongest owned
planet with at least 10 ships exists, a best-scoring enemy target exists, and
the strongest planet's ships exceed `(target.ships + 1) + 15`; the order then
sends exactly `target.ships + 1` ships; on the spec's scenario it issues
`Order(1, 2, 6)`. -/
theorem attack_best_target_spec :
    (∀ (st : GameState) (o : Order),
      attack_best_target st = some o ↔
        ∃ s t, get_strongest_planet st = some s ∧ 10 ≤ s.num_ships ∧
          find_best_enemy_target st (some s) = some t ∧
          t.num_ships + 1 + 15 < s.num_ships ∧
          o = ⟨s.ID, t.ID, ((t.num_ships + 1 : Nat) : Int)⟩) ∧
    attack_best_target scenarioA = some ⟨1, 2, 6⟩ := by
  constructor
  · intro st o
    constructor
    · exact attack_best_target_inv st o
    · rintro ⟨s, t, hs, h10, ht, hc, rfl⟩
      have h10' : ¬ s.num_ships < 10 := Nat.not_lt.mpr h10
      simp [attack_best_target, hs, ht, h10', hc]
  · decide

theorem attack_best_target_spec_witness :
    ∃ s t, get_strongest_planet scenarioA = some s ∧ 10 ≤ s.num_ships ∧
      find_best_enemy_target scenarioA (some s) = some t ∧
      t.num_ships + 1 + 15 < s.num_ships ∧
      (⟨1, 2, 6⟩ : Order) = ⟨s.ID, t.ID, ((t.num_ships + 1 : Nat) : Int)⟩ :=
  (attack_best_target_spec.1 scenarioA ⟨1, 2, 6⟩).mp (by decide)

/-- Claim C6, counterexample: in `scenarioCovered` a friendly fleet of 6 ships
is already in flight to the chosen neutral target, fully covering its capture
cost of `5 + 1` ships, yet `expand_to_valuable_neutral` still issues a fresh
order for 6 ships: the source never nets out in-flight friendly fleets. -/
theorem expand_overcommits_to_covered_target :
    scenarioCovered.my_fleets = [⟨Owner.mine, 6, 2, 1⟩] ∧
    find_best_neutral_target scenarioCovered (some ⟨1, Owner.mine, 30, 1⟩) =
      some ⟨2, Owner.neutral, 5, 5⟩ ∧
    expand_to_valuable_neutral scenarioCovered = some ⟨1, 2, 6⟩ := by decide

/-- Claim C6, amended: `expand_to_valuable_neutral` requires the strongest
owned planet to hold at least 15 ships and a margin of 10 over the required
`target.ships + 1`; it does not read the in-flight fleets at all, so a target
already covered by friendly fleets can still receive a fresh order. -/
theorem expand_to_valuable_neutral_spec :
    (∀ (st : GameState) (o : Order),
      expand_to_valuable_neutral st = some o ↔
        ∃ s t, get_strongest_planet st = some s ∧ 15 ≤ s.num_ships ∧
          find_best_neutral_target st (some s) = some t ∧
          t.num_ships + 1 + 10 < s.num_ships ∧
          o = ⟨s.ID, t.ID, ((t.num_ships + 1 : Nat) : Int)⟩) ∧
    (∀ (st : GameState) (fl : List Fleet),
      expand_to_valuable_neutral ⟨st.planets, fl, st.dist⟩ =
        expand_to_valuable_neutral st) := by
  constructor
  · intro st o
    constructor
    · exact expand_to_valuable_neutral_inv st o
    · rintro ⟨s, t, hs, h15, ht, hc, rfl⟩
      have h15' : ¬ s.num_ships < 15 := Nat.not_lt.mpr h15
      simp [expand_to_valuable_neutral, hs, ht, h15', hc]
  · intro st fl
    rfl

theorem expand_to_valuable_neutral_spec_witness :
    ∃ s t, get_strongest_planet scenarioCovered = some s ∧ 15 ≤ s.num_ships ∧
      find_best_neutral_target scenarioCovered (some s) = some t ∧
      t.num_ships + 1 + 10 < s.num_ships ∧
      (⟨1, 2, 6⟩ : Order) = ⟨s.ID, t.ID, ((t.num_ships + 1 : Nat) : Int)⟩ :=
  (expand_to_valuable_neutral_spec.1 scenarioCovered ⟨1, 2, 6⟩).mp (by decide)

/-- Claim C7: `defend_under_attack_planet` scans owned planets in order and,
at the first planet whose incoming enemy ships reach its own ship count and
for which a sufficiently strong other owned planet exists, issues exactly one
order for `totalIncoming - planet.ships + 5` ships from the closest such
reinforcer, then returns; on the spec's scenario it issues `Order(2, 1, 25)`. -/
theorem defend_under_attack_spec :
    (∀ (st : GameState) (o : Order),
      defend_under_attack_planet st = some o →
        ∃ l1 p l2, st.my_planets = l1 ++ p :: l2 ∧
          (∀ q ∈ l1, defendPlanetOrder st q = none) ∧
          defendPlanetOrder st p = some o ∧
          p.num_ships ≤ totalIncoming st p ∧
          ∃ r, get_closest_planet st (some p)
              (st.my_planets.filter
                (fun q => decide (q.ID ≠ p.ID ∧ totalIncoming st p + 5 < q.num_ships))) =
                some r ∧
            r ∈ st.my_planets ∧
            o = ⟨r.ID, p.ID, (totalIncoming st p : Int) - (p.num_ships : Int) + 5⟩) ∧
    defend_under_attack_planet scenarioD = some ⟨2, 1, 25⟩ := by
  constructor
  · intro st o h
    obtain ⟨l1, p, l2, hsplit, hnone, hp⟩ := defendLoop_first st st.my_planets o h
    obtain ⟨hle, r, hr, ho, -⟩ := defendPlanetOrder_inv st p o hp
    exact ⟨l1, p, l2, hsplit, hnone, hp, hle, r, hr,
      List.mem_of_mem_filter (get_closest_planet_mem st p _ r hr), ho⟩
  · decide

theorem defend_under_attack_spec_witness :
    ∃ l1 p l2, scenarioD.my_planets = l1 ++ p :: l2 ∧
      (∀ q ∈ l1, defendPlanetOrder scenarioD q = none) ∧
      defendPlanetOrder scenarioD p = some ⟨2, 1, 25⟩ ∧
      p.num_ships ≤ totalIncoming scenarioD p ∧
      ∃ r, get_closest_planet scenarioD (some p)
          (scenarioD.my_planets.filter
            (fun q => decide (q.ID ≠ p.ID ∧ totalIncoming scenarioD p + 5 < q.num_ships))) =
            some r ∧
        r ∈ scenarioD.my_planets ∧
        (⟨2, 1, 25⟩ : Order) =
          ⟨r.ID, p.ID, (totalIncoming scenarioD p : Int) - (p.num_ships : Int) + 5⟩ :=
  defend_under_attack_spec.1 scenarioD ⟨2, 1, 25⟩ (by decide)

/-- Claim C8: `deployable_planets` returns exactly the owned planets whose
ship count strictly exceeds the average ally strength, each paired with its
surplus over that average. -/
theorem deployable_planets_spec (st : GameState) (p : Planet) (s : ℚ) :
    (p, s) ∈ deployable_planets st ↔
      p ∈ st.my_planets ∧ average_ally_power st < (p.num_ships : ℚ) ∧
        s = (p.num_ships : ℚ) - average_ally_power st := by
  unfold deployable_planets
  constructor
  · intro h
    rcases List.mem_map.mp h with ⟨q, hq, heq⟩
    rcases List.mem_filter.mp hq with ⟨hqm, hqc⟩
    rw [Prod.mk.injEq] at heq
    obtain ⟨rfl, rfl⟩ := heq
    exact ⟨hqm, of_decide_eq_true hqc, rfl⟩
  · rintro ⟨hm, hlt, rfl⟩
    exact List.mem_map.mpr ⟨p, List.mem_filter.mpr ⟨hm, decide_eq_true hlt⟩, rfl⟩

theorem deployable_planets_spec_witness :
    ((⟨2, Owner.mine, 30, 1⟩ : Planet), (10 : ℚ)) ∈ deployable_planets scenarioTwoMine := by
  have havg : average_ally_power scenarioTwoMine = 20 := by
    simp [average_ally_power, GameState.my_planets, scenarioTwoMine, List.filter]
    norm_num
  exact (deployable_planets_spec scenarioTwoMine ⟨2, Owner.mine, 30, 1⟩ 10).mpr
    ⟨by decide, by rw [havg]; norm_num, by rw [havg]; norm_num⟩

theorem satur_mono (a b : ℕ) (hab : a ≤ b) :
    (a : ℚ) / ((a : ℚ) + 100) ≤ (b : ℚ) / ((b : ℚ) + 100) := by
  have ha : (0 : ℚ) ≤ (a : ℚ) := Nat.cast_nonneg a
  have hb : (0 : ℚ) ≤ (b : ℚ) := Nat.cast_nonneg b
  have hab' : (a : ℚ) ≤ (b : ℚ) := by exact_mod_cast hab
  rw [div_le_div_iff₀ (by linarith) (by linarith)]
  nlinarith

theorem invdist_anti (t1 t2 : ℕ) (h : t2 ≤ t1) :
    1 / ((t1 : ℚ) + 1) ≤ 1 / ((t2 : ℚ) + 1) := by
  have h' : ((t2 : ℚ) + 1) ≤ ((t1 : ℚ) + 1) := by
    have hc : (t2 : ℚ) ≤ (t1 : ℚ) := by exact_mod_cast h
    linarith
  exact one_div_le_one_div_of_le (by positivity) h'

theorem fleetLoopVars_append_cons (A B : List Fleet) (f : Fleet) :
    fleetLoopVars (A ++ f :: B) =
      B.foldl
        (fun _ g =>
          some (1 / ((g.turns_remaining : ℚ) + 1),
                (g.num_ships : ℚ) / ((g.num_ships : ℚ) + 100)))
        (some (1 / ((f.turns_remaining : ℚ) + 1),
               (f.num_ships : ℚ) / ((f.num_ships : ℚ) + 100))) := by
  unfold fleetLoopVars
  rw [List.foldl_append, List.foldl_cons]

theorem fleetFold_some :
    ∀ (l : List Fleet) (x : ℚ × ℚ),
      ∃ y, l.foldl
        (fun _ g =>
          some (1 / ((g.turns_remaining : ℚ) + 1),
                (g.num_ships : ℚ) / ((g.num_ships : ℚ) + 100))) (some x) = some y := by
  intro l
  induction l with
  | nil => intro x; exact ⟨x, rfl⟩
  | cons c cs ih =>
    intro x
    rw [List.foldl_cons]
    exact ih _

/-- Claim C9: holding everything else fixed, `danger_level` is monotonically
non-decreasing in a single incoming enemy fleet's ship count, and
monotonically non-decreasing as that fleet's turns-remaining decreases toward
zero. -/
theorem danger_level_monotone
    (planets : List Planet) (dist : Nat → Nat → Nat)
    (l1 l2 : List Fleet) (f1 f2 : Fleet) (p : Planet)
    (h1 : f1.owner = Owner.enemy) (h2 : f2.owner = Owner.enemy)
    (hd1 : f1.destination_planet = p.ID) (hd2 : f2.destination_planet = p.ID)
    (hmono : (f1.turns_remaining = f2.turns_remaining ∧ f1.num_ships ≤ f2.num_ships) ∨
             (f1.num_ships = f2.num_ships ∧ f2.turns_remaining ≤ f1.turns_remaining)) :
    ∃ d1 d2,
      danger_level ⟨planets, l1 ++ f1 :: l2, dist⟩ p = some d1 ∧
      danger_level ⟨planets, l1 ++ f2 :: l2, dist⟩ p = some d2 ∧ d1 ≤ d2 := by
  have hfil : ∀ f : Fleet, f.owner = Owner.enemy → f.destination_planet = p.ID →
      (GameState.enemy_fleets ⟨planets, l1 ++ f :: l2, dist⟩).filter
        (fun g => decide (g.destination_planet = p.ID)) =
      ((l1.filter (fun g => decide (g.owner = Owner.enemy))).filter
        (fun g => decide (g.destination_planet = p.ID))) ++ f ::
      ((l2.filter (fun g => decide (g.owner = Owner.enemy))).filter
        (fun g => decide (g.destination_planet = p.ID))) := by
    intro f hf hd
    simp [GameState.enemy_fleets, List.filter_append, hf, hd]
  have hvars : ∀ f : Fleet, f.owner = Owner.enemy → f.destination_planet = p.ID →
      fleetLoopVars ((GameState.enemy_fleets ⟨planets, l1 ++ f :: l2, dist⟩).filter
        (fun g => decide (g.destination_planet = p.ID))) =
      ((l2.filter (fun g => decide (g.owner = Owner.enemy))).filter
        (fun g => decide (g.destination_planet = p.ID))).foldl
        (fun _ g =>
          some (1 / ((g.turns_remaining : ℚ) + 1),
                (g.num_ships : ℚ) / ((g.num_ships : ℚ) + 100)))
        (some (1 / ((f.turns_remaining : ℚ) + 1),
               (f.num_ships : ℚ) / ((f.num_ships : ℚ) + 100))) := by
    intro f hf hd
    rw [hfil f hf hd, fleetLoopVars_append_cons]
  cases hBcase : ((l2.filter (fun g => decide (g.owner = Owner.enemy))).filter
      (fun g => decide (g.destination_planet = p.ID))) with
  | nil =>
    have e1 : danger_level ⟨planets, l1 ++ f1 :: l2, dist⟩ p =
        some (1 / ((f1.turns_remaining : ℚ) + 1) * 5 +
          (f1.num_ships : ℚ) / ((f1.num_ships : ℚ) + 100) * 3 +
          enemyPlanetPressure ⟨planets, l1 ++ f1 :: l2, dist⟩ p) := by
      dsimp only [danger_level]
      rw [hvars f1 h1 hd1, hBcase]
      rfl
    have e2 : danger_level ⟨planets, l1 ++ f2 :: l2, dist⟩ p =
        some (1 / ((f2.turns_remaining : ℚ) + 1) * 5 +
          (f2.num_ships : ℚ) / ((f2.num_ships : ℚ) + 100) * 3 +
          enemyPlanetPressure ⟨planets, l1 ++ f2 :: l2, dist⟩ p) := by
      dsimp only [danger_level]
      rw [hvars f2 h2 hd2, hBcase]
      rfl
    refine ⟨_, _, e1, e2, ?_⟩
    have epp : enemyPlanetPressure ⟨planets, l1 ++ f2 :: l2, dist⟩ p =
        enemyPlanetPressure ⟨planets, l1 ++ f1 :: l2, dist⟩ p := rfl
    rw [epp]
    rcases hmono with ⟨ht, hs⟩ | ⟨hs, ht⟩
    · rw [ht]
      linarith [satur_mono f1.num_ships f2.num_ships hs]
    · rw [hs]
      linarith [invdist_anti f1.turns_remaining f2.turns_remaining ht]
  | cons b bs =>
    have e12 : danger_level ⟨planets, l1 ++ f1 :: l2, dist⟩ p =
        danger_level ⟨planets, l1 ++ f2 :: l2, dist⟩ p := by
      dsimp only [danger_level]
      rw [hvars f1 h1 hd1, hvars f2 h2 hd2, hBcase, List.foldl_cons, List.foldl_cons]
      rfl
    obtain ⟨d, hd⟩ : ∃ d, danger_level ⟨planets, l1 ++ f1 :: l2, dist⟩ p = some d := by
      dsimp only [danger_level]
      rw [hvars f1 h1 hd1, hBcase]
      obtain ⟨y, hy⟩ := fleetFold_some (b :: bs)
        (1 / ((f1.turns_remaining : ℚ) + 1),
         (f1.num_ships : ℚ) / ((f1.num_ships : ℚ) + 100))
      rw [hy]
      exact ⟨_, rfl⟩
    exact ⟨d, d, hd, e12 ▸ hd, le_refl d⟩

theorem danger_level_monotone_witness :
    ∃ d1 d2,
      danger_level ⟨[pMono], [fleetSmall], distMono⟩ pMono = some d1 ∧
      danger_level ⟨[pMono], [fleetBig], distMono⟩ pMono = some d2 ∧ d1 ≤ d2 :=
  danger_level_monotone [pMono] distMono [] [] fleetSmall fleetBig pMono rfl rfl rfl rfl
    (Or.inl ⟨rfl, by decide⟩)

end PW
